import Mathlib

/-
Verification of the lead-capture backend (main.py): data model, validation,
persistence, notification dispatch and listing. Pure Python string/env
behaviour is embedded explicitly; the document store and the Lead schema,
which live outside main.py, are modelled from the specification.
-/

set_option autoImplicit false
set_option linter.unusedVariables false

namespace LeadApi

/-! ## Python-level helpers -/

/-- Characters stripped by Python's int() before parsing (whitespace). -/
def pyIsSpace (c : Char) : Bool :=
  c = ' ' || c = '\t' || c = '\n' || c = '\r'

/-- Strip leading and trailing whitespace from a string. -/
def pyStrip (s : String) : String :=
  String.mk (((s.toList.dropWhile pyIsSpace).reverse.dropWhile pyIsSpace).reverse)

/-- Interpret a list of decimal digit characters as a natural number. -/
def digitsToNat (cs : List Char) : Nat :=
  cs.foldl (fun n c => n * 10 + (c.toNat - 48)) 0

/-- Python int(s) on a string: strips whitespace, accepts an optional sign
followed by decimal digits, and fails (raises ValueError) otherwise.
`none` models the raised ValueError. -/
def pyToInt (s : String) : Option Int :=
  match (pyStrip s).toList with
  | [] => none
  | c :: cs =>
    if c = '-' then
      if cs ≠ [] ∧ cs.all Char.isDigit then some (-(digitsToNat cs : Int)) else none
    else if c = '+' then
      if cs ≠ [] ∧ cs.all Char.isDigit then some ((digitsToNat cs : Int)) else none
    else
      if (c :: cs).all Char.isDigit then some ((digitsToNat (c :: cs) : Int)) else none

/-- Python `s or d` for strings: the empty string is falsy. -/
def pyOr (s : Option String) (d : String) : String :=
  match s with
  | none => d
  | some v => if v = "" then d else v

/-- Python str() applied to an optional string value: str(None) = "None". -/
def pyStr (o : Option String) : String :=
  match o with
  | none => "None"
  | some s => s

/-- Python truthiness of an optional string: None and "" are falsy. -/
def truthy (o : Option String) : Bool :=
  match o with
  | none => false
  | some s => s ≠ ""

/-- A raw field that is missing or empty. -/
def blank (o : Option String) : Bool :=
  match o with
  | none => true
  | some s => s = ""

/-! ## Data model -/

/-- Validated lead submission, mirroring the LeadCreate pydantic model
(name, email, interest required; phone, notes optional). -/
structure LeadCreate where
  name : String
  email : String
  phone : Option String
  interest : String
  notes : Option String
  deriving DecidableEq

/-- Caller-facing record shape returned by the listing endpoint (LeadOut).
Timestamps are modelled as abstract ticks. -/
structure LeadOut where
  id : String
  name : String
  email : String
  phone : Option String
  interest : String
  notes : Option String
  created_at : Option Nat
  deriving DecidableEq

/-- Document as held by the store: dict-like, every field may be absent.
The storage identifier `oid` models the _id field. -/
structure StoredDoc where
  oid : Option String
  name : Option String
  email : Option String
  phone : Option String
  interest : Option String
  notes : Option String
  created_at : Option Nat
  deriving DecidableEq

/-- Modelled from the spec: the document store behind `create_document` and
`get_documents` (database.py is not part of main.py). Documents are kept
newest first; `nextOid` generates fresh identifiers; `clock` provides
creation timestamps. -/
structure Store where
  docs : List StoredDoc
  nextOid : Nat
  clock : Nat
  deriving DecidableEq

/-- SMTP / notification environment variables; `none` means unset. -/
structure Env where
  smtp_host : Option String
  smtp_port : Option String
  smtp_user : Option String
  smtp_pass : Option String
  smtp_from : Option String
  notify_primary : Option String
  notify_secondary : Option String
  deriving DecidableEq

/-- Validation failures enumerated by the spec: empty name, malformed
email, empty interest. -/
inductive FieldError where
  | missingName
  | malformedEmail
  | missingInterest
  deriving DecidableEq

/-- HTTP-level response of the lead endpoints. -/
inductive ApiResponse where
  | success (id : String)
  | validationFailure (errs : List FieldError)
  | httpError (status : Nat) (detail : String)
  deriving DecidableEq

/-- Outcome of one notification dispatch. `raised` models an exception
escaping _send_email_sync to its caller; `skipped` models the early return
after logging; `failedLogged` models a send error caught and logged. -/
inductive EmailResult where
  | raised
  | skipped
  | sent
  | failedLogged (err : String)
  deriving DecidableEq

/-! ## Modelled collaborators (not in main.py) -/

/-- Modelled from the spec: email-shape check of the Lead schema in
schemas.py (absent from the sources); per section 4.1 a malformed or empty
email fails validation. Shape check: contains an @ sign. -/
def emailShape (s : String) : Bool :=
  s.toList.contains '@'

/-- Modelled from the spec: the validation errors collected by the Lead
schema for a raw submission, in field order. -/
def vErrs (rawName rawEmail rawInterest : Option String) : List FieldError :=
  (if blank rawName then [FieldError.missingName] else []) ++
  (if !emailShape (rawEmail.getD "") then [FieldError.malformedEmail] else []) ++
  (if blank rawInterest then [FieldError.missingInterest] else [])

/-- Modelled from the spec: Lead Record validation (schemas.py is absent
from the sources). Produces a validated record or the list of required
fields that are missing or malformed; no side effects. -/
def validateLead (rawName rawEmail rawPhone rawInterest rawNotes : Option String) :
    Except (List FieldError) LeadCreate :=
  if vErrs rawName rawEmail rawInterest = [] then
    Except.ok
      { name := rawName.getD "", email := rawEmail.getD "", phone := rawPhone,
        interest := rawInterest.getD "", notes := rawNotes }
  else
    Except.error (vErrs rawName rawEmail rawInterest)

/-- Modelled from the spec: `create_document` of database.py (absent from
the sources). Serializes the record, inserts it newest first, returns a
string identifier; the store sets created_at. -/
def create_document (lead : LeadCreate) (store : Store) : String × Store :=
  let oid := "oid" ++ toString store.nextOid
  let doc : StoredDoc :=
    { oid := some oid, name := some lead.name, email := some lead.email,
      phone := lead.phone, interest := some lead.interest, notes := lead.notes,
      created_at := some store.clock }
  (oid, { docs := doc :: store.docs, nextOid := store.nextOid + 1, clock := store.clock + 1 })

/-- Modelled from the spec: `get_documents` of database.py (absent from the
sources). Returns up to `limit` most recently created documents, newest
first. -/
def get_documents (store : Store) (limit : Nat) : List StoredDoc :=
  store.docs.take limit

/-! ## Notification dispatcher (main.py lines 90-143) -/

/-- _send_email_sync. The port is parsed with int() before the
configuration check and outside the try block, so an unparsable SMTP_PORT
raises. The network transaction (connect, starttls, login, send) is
abstracted by `smtp`: any exception it raises is caught and logged. -/
def send_email_sync (env : Env) (subject body : String) (to_emails : List String)
    (smtp : Except String Unit) : EmailResult :=
  match pyToInt ((env.smtp_port).getD "587") with
  | none => EmailResult.raised
  | some _ =>
    if truthy env.smtp_host && truthy env.smtp_from && !to_emails.isEmpty then
      match smtp with
      | Except.ok _ => EmailResult.sent
      | Except.error e => EmailResult.failedLogged e
    else
      EmailResult.skipped

/-- Subject line built by queue_lead_notification. -/
def lead_subject : String := "New consultation lead – Expat Solutions in Asia"

/-- The `lines` list built by queue_lead_notification. -/
def lead_lines (lead : LeadCreate) (inserted_id : String) : List String :=
  [ "A new lead has been submitted:",
    "ID: " ++ inserted_id,
    "Name: " ++ lead.name,
    "Email: " ++ lead.email,
    "Phone: " ++ pyOr lead.phone "-",
    "Interest: " ++ lead.interest,
    "Notes: " ++ pyOr lead.notes "-",
    "",
    "Reply directly to the contact to follow up." ]

/-- Plaintext body: newline join of the lines. -/
def lead_body (lead : LeadCreate) (inserted_id : String) : String :=
  String.intercalate "\n" (lead_lines lead inserted_id)

/-- The filter on line 141 of main.py: keep entries that are truthy and do
not occur earlier in the original list (to_list[:i], kept in `seen`). -/
def dedupKeep (seen : List String) : List String → List String
  | [] => []
  | e :: rest =>
    if e ≠ "" ∧ e ∉ seen then e :: dedupKeep (seen ++ [e]) rest
    else dedupKeep (seen ++ [e]) rest

/-- Recipient resolution of queue_lead_notification: primary and secondary
from the environment with hard-coded defaults, then the dedup filter. -/
def resolve_to_list (primary secondary : Option String) : List String :=
  dedupKeep []
    [ primary.getD "ken@expatsolutionsinasia.com",
      secondary.getD "cloud@expatsolutionsinasia.com" ]

/-- queue_lead_notification: builds subject, body and recipients, then
calls _send_email_sync. -/
def queue_lead_notification (lead : LeadCreate) (inserted_id : String) (env : Env)
    (smtp : Except String Unit) : EmailResult :=
  send_email_sync env lead_subject (lead_body lead inserted_id)
    (resolve_to_list env.notify_primary env.notify_secondary) smtp

/-! ## Endpoints (main.py lines 147-176) -/

/-- Result of running the create_lead handler: the HTTP response, whether a
background notification was scheduled, and (when scheduled) the outcome of
that background task after the response was sent. -/
structure HandlerResult where
  response : ApiResponse
  notifyScheduled : Bool
  notifyOutcome : Option EmailResult
  deriving DecidableEq

/-- create_lead handler body. `createOutcome` is what create_document does
(Except.error models a raised exception). On success the notification task
is added and the dict with success and id is returned; the task runs only
after the response, so its outcome is recorded separately and cannot feed
back into `response`. On failure a 500 with str(e) is raised and no task is
added. -/
def create_lead (lead : LeadCreate) (createOutcome : Except String String)
    (env : Env) (smtp : Except String Unit) : HandlerResult :=
  match createOutcome with
  | Except.ok inserted_id =>
    { response := ApiResponse.success inserted_id,
      notifyScheduled := true,
      notifyOutcome := some (queue_lead_notification lead inserted_id env smtp) }
  | Except.error e =>
    { response := ApiResponse.httpError 500 e,
      notifyScheduled := false,
      notifyOutcome := none }

/-- Result of the POST /api/leads route including the framework-level
validation step. -/
structure RouteResult where
  response : ApiResponse
  storeCalled : Bool
  notifyScheduled : Bool
  notifyOutcome : Option EmailResult
  deriving DecidableEq

/-- POST /api/leads: framework validation of the request body against the
Lead schema, then the create_lead handler against the modelled store
(whose create succeeds). Returns the route result and the updated store. -/
def api_post_leads (rawName rawEmail rawPhone rawInterest rawNotes : Option String)
    (store : Store) (env : Env) (smtp : Except String Unit) : RouteResult × Store :=
  match validateLead rawName rawEmail rawPhone rawInterest rawNotes with
  | Except.error errs =>
    ({ response := ApiResponse.validationFailure errs, storeCalled := false,
       notifyScheduled := false, notifyOutcome := none }, store)
  | Except.ok lead =>
    let r := create_document lead store
    let h := create_lead lead (Except.ok r.1) env smtp
    ({ response := h.response, storeCalled := true,
       notifyScheduled := h.notifyScheduled, notifyOutcome := h.notifyOutcome }, r.2)

/-- The per-document normalization inside list_leads: id rendered with
str(), required text fields defaulted to "", timestamp carried over. -/
def docToLeadOut (d : StoredDoc) : LeadOut :=
  { id := pyStr d.oid, name := d.name.getD "", email := d.email.getD "",
    phone := d.phone, interest := d.interest.getD "", notes := d.notes,
    created_at := d.created_at }

/-- list_leads handler body on the success path: fetch up to limit
documents and normalize each. -/
def list_leads (store : Store) (limit : Nat) : List LeadOut :=
  (get_documents store limit).map docToLeadOut

/-- GET /api/leads with the query parameter optional; its default is 50. -/
def api_get_leads (store : Store) (limit : Option Nat) : List LeadOut :=
  list_leads store (limit.getD 50)

/-! ## Helper lemmas -/

/-- Identifiers generated by the modelled store are never empty. -/
lemma oid_ne_empty (n : Nat) : ("oid" ++ toString n) ≠ "" := by
  intro h
  have h2 := congrArg String.length h
  simp [String.length_append] at h2
  exact absurd h2.1 (by decide)

/-- Closed form of the dedup filter on a two-element list. -/
lemma dedup_pair (p s : String) :
    dedupKeep [] [p, s] =
      (if p = "" then [] else [p]) ++ (if s = "" ∨ s = p then [] else [s]) := by
  simp only [dedupKeep]
  by_cases hp : p = "" <;> by_cases hs : s = "" <;> by_cases hsp : s = p <;>
    simp_all [dedupKeep]

/-- A missing or empty email fails the shape check. -/
lemma blank_email_not_shape (e : Option String) (h : blank e = true) :
    emailShape (e.getD "") = false := by
  cases e with
  | none => rfl
  | some s =>
    simp [blank] at h
    subst h
    rfl

/-- A blank required field makes the validation error list nonempty. -/
lemma vErrs_ne_nil_of_blank (rawName rawEmail rawInterest : Option String)
    (h : blank rawName = true ∨ blank rawEmail = true ∨ blank rawInterest = true) :
    vErrs rawName rawEmail rawInterest ≠ [] := by
  rcases h with h | h | h
  · simp [vErrs, h]
  · simp [vErrs, blank_email_not_shape _ h]
  · simp [vErrs, h]

/-! ## Claims -/

/-- C1: for every submission that persists successfully, a failure of the
email notification never alters the HTTP response: the caller still
receives the success body with the id, and the response is independent of
the notification outcome altogether. -/
theorem spec_C1 (lead : LeadCreate) (id : String) (env : Env) (err : String) :
    (create_lead lead (Except.ok id) env (Except.error err)).response
        = ApiResponse.success id ∧
    ∀ o1 o2 : Except String Unit,
      (create_lead lead (Except.ok id) env o1).response
        = (create_lead lead (Except.ok id) env o2).response :=
  ⟨rfl, fun _ _ => rfl⟩

/-- C3: when persistence raises, the service responds 500 with the failure
cause as detail and schedules no notification; the notify step runs only
after a successful persist. -/
theorem spec_C3 (lead : LeadCreate) (env : Env) (err : String)
    (smtp : Except String Unit) :
    create_lead lead (Except.error err) env smtp =
      { response := ApiResponse.httpError 500 err,
        notifyScheduled := false, notifyOutcome := none } ∧
    ∀ id, (create_lead lead (Except.ok id) env smtp).notifyScheduled = true :=
  ⟨rfl, fun _ => rfl⟩

/-- C5: the resolved recipient list is the primary and secondary address
with empty entries dropped and duplicates removed preserving
first-occurrence order; when primary equals secondary (nonempty), exactly
one recipient is addressed. -/
theorem spec_C5 (p s : String) :
    resolve_to_list (some p) (some s) =
      (if p = "" then [] else [p]) ++ (if s = "" ∨ s = p then [] else [s]) ∧
    (resolve_to_list (some p) (some p)).length = if p = "" then 0 else 1 := by
  constructor
  · exact dedup_pair p s
  · rw [show resolve_to_list (some p) (some p) = dedupKeep [] [p, p] from rfl,
        dedup_pair p p]
    by_cases hp : p = "" <;> simp [hp]

/-- C6: the notification message has the fixed subject line and a
plaintext body whose lines are, in order: a header, the id, name, email,
phone or a dash placeholder, interest, notes or a dash placeholder, a
blank line, and the instruction to reply directly to the contact. -/
theorem spec_C6 (lead : LeadCreate) (id : String) :
    lead_subject = "New consultation lead – Expat Solutions in Asia" ∧
    lead_lines lead id =
      [ "A new lead has been submitted:",
        "ID: " ++ id,
        "Name: " ++ lead.name,
        "Email: " ++ lead.email,
        "Phone: " ++ (match lead.phone with
          | none => "-"
          | some v => if v = "" then "-" else v),
        "Interest: " ++ lead.interest,
        "Notes: " ++ (match lead.notes with
          | none => "-"
          | some v => if v = "" then "-" else v),
        "",
        "Reply directly to the contact to follow up." ] ∧
    lead_body lead id = String.intercalate "\n" (lead_lines lead id) := by
  refine ⟨rfl, ?_, rfl⟩
  cases hp : lead.phone <;> cases hn : lead.notes <;>
    simp [lead_lines, pyOr, hp, hn]

/-- C10: unset recipient environment variables fall back to the hard-coded
default addresses, so the resolved list is non-empty; the list resolves
empty exactly when both variables are set to the empty string. -/
theorem spec_C10 :
    resolve_to_list none none =
      ["ken@expatsolutionsinasia.com", "cloud@expatsolutionsinasia.com"] ∧
    ∀ p s : Option String,
      (resolve_to_list p s = [] ↔ p = some "" ∧ s = some "") := by
  constructor
  · rfl
  · intro p s
    cases p with
    | none =>
      rw [show resolve_to_list none s
            = dedupKeep [] ["ken@expatsolutionsinasia.com",
                s.getD "cloud@expatsolutionsinasia.com"] from rfl, dedup_pair]
      simp
    | some a =>
      cases s with
      | none =>
        rw [show resolve_to_list (some a) none
              = dedupKeep [] [a, "cloud@expatsolutionsinasia.com"] from rfl,
            dedup_pair]
        by_cases ha : a = "" <;> simp [ha]
      | some b =>
        rw [show resolve_to_list (some a) (some b)
              = dedupKeep [] [a, b] from rfl, dedup_pair]
        by_cases ha : a = "" <;> by_cases hb : b = "" <;> simp_all

/-- C2 counterexample: with SMTP_PORT set to a non-numeric string the
int() call on line 95 of main.py runs before the try block, so
_send_email_sync raises a ValueError to its caller instead of returning
normally — even with host, from-address and recipients all present. -/
theorem spec_C2_counterexample :
    send_email_sync
      { smtp_host := some "smtp.example.com", smtp_port := some "abc",
        smtp_user := none, smtp_pass := none,
        smtp_from := some "noreply@example.com",
        notify_primary := none, notify_secondary := none }
      "subject" "body" ["ken@expatsolutionsinasia.com"] (Except.ok ())
      = EmailResult.raised := by decide

/-- C2 (amended): whenever SMTP_PORT is unset or parses as an integer,
_send_email_sync returns normally for every configuration, subject, body
and recipient list, never propagating an exception to its caller. -/
theorem spec_C2 (env : Env) (subject body : String) (to_emails : List String)
    (smtp : Except String Unit)
    (h : (pyToInt ((env.smtp_port).getD "587")).isSome = true) :
    send_email_sync env subject body to_emails smtp ≠ EmailResult.raised := by
  obtain ⟨v, hv⟩ := Option.isSome_iff_exists.mp h
  unfold send_email_sync
  rw [hv]
  by_cases hc : (truthy env.smtp_host && truthy env.smtp_from
      && !to_emails.isEmpty) = true
  · rw [if_pos hc]
    cases smtp <;> simp
  · rw [if_neg hc]
    simp

/-- C2 witness: concrete application of the amended theorem. -/
theorem spec_C2_witness :
    (pyToInt ((Env.mk none none none none none none none).smtp_port.getD
      "587")).isSome = true ∧
    send_email_sync (Env.mk none none none none none none none)
      "subject" "body" [] (Except.ok ()) ≠ EmailResult.raised :=
  ⟨by decide,
   spec_C2 (Env.mk none none none none none none none) "subject" "body" []
     (Except.ok ()) (by decide)⟩

/-- C9 counterexample: relay configuration incomplete (host and
from-address unset) and no recipients, yet dispatch raises instead of
returning after logging, because the unparsable SMTP_PORT is read first. -/
theorem spec_C9_counterexample :
    send_email_sync
      { smtp_host := none, smtp_port := some "not-a-port", smtp_user := none,
        smtp_pass := none, smtp_from := none,
        notify_primary := none, notify_secondary := none }
      "subject" "body" [] (Except.ok ())
      = EmailResult.raised := by decide

/-- C9 (amended): provided SMTP_PORT is unset or parses as an integer,
whenever the relay configuration is incomplete (host or from-address
falsy) or no recipients resolve, dispatch skips sending entirely: it
returns the logged-skip outcome, never a send and never a raise. -/
theorem spec_C9 (env : Env) (subject body : String) (to_emails : List String)
    (smtp : Except String Unit)
    (hport : (pyToInt ((env.smtp_port).getD "587")).isSome = true)
    (hcfg : truthy env.smtp_host = false ∨ truthy env.smtp_from = false
      ∨ to_emails = []) :
    send_email_sync env subject body to_emails smtp = EmailResult.skipped := by
  obtain ⟨v, hv⟩ := Option.isSome_iff_exists.mp hport
  unfold send_email_sync
  rw [hv, if_neg]
  rcases hcfg with h | h | h <;> simp [h]

/-- C9 witness: concrete application of the amended theorem. -/
theorem spec_C9_witness :
    (pyToInt ((Env.mk none none none none none none none).smtp_port.getD
      "587")).isSome = true ∧
    truthy (Env.mk none none none none none none none).smtp_host = false ∧
    send_email_sync (Env.mk none none none none none none none)
      "subject" "body" ["ken@expatsolutionsinasia.com"] (Except.ok ())
      = EmailResult.skipped :=
  ⟨by decide, by decide,
   spec_C9 (Env.mk none none none none none none none) "subject" "body"
     ["ken@expatsolutionsinasia.com"] (Except.ok ()) (by decide)
     (Or.inl (by decide))⟩

/-- C4: a submission missing name, email or interest (or with any of them
empty) yields a validation failure naming at least one field, the store
create operation is not called, and the store is unchanged. -/
theorem spec_C4 (rawName rawEmail rawPhone rawInterest rawNotes : Option String)
    (store : Store) (env : Env) (smtp : Except String Unit)
    (h : blank rawName = true ∨ blank rawEmail = true ∨ blank rawInterest = true) :
    (∃ errs, errs ≠ [] ∧
      (api_post_leads rawName rawEmail rawPhone rawInterest rawNotes
        store env smtp).1.response = ApiResponse.validationFailure errs) ∧
    (api_post_leads rawName rawEmail rawPhone rawInterest rawNotes
      store env smtp).1.storeCalled = false ∧
    (api_post_leads rawName rawEmail rawPhone rawInterest rawNotes
      store env smtp).2 = store := by
  have hne := vErrs_ne_nil_of_blank rawName rawEmail rawInterest h
  have hv : validateLead rawName rawEmail rawPhone rawInterest rawNotes
      = Except.error (vErrs rawName rawEmail rawInterest) := by
    rw [validateLead, if_neg hne]
  refine ⟨⟨vErrs rawName rawEmail rawInterest, hne, ?_⟩, ?_, ?_⟩ <;>
    simp [api_post_leads, hv]

/-- C4 witness: a submission with no name is rejected without persistence. -/
theorem spec_C4_witness :
    blank (none : Option String) = true ∧
    ((∃ errs, errs ≠ [] ∧
      (api_post_leads none (some "jane@example.com") none
        (some "visa consultation") none (Store.mk [] 0 0)
        (Env.mk none none none none none none none)
        (Except.ok ())).1.response = ApiResponse.validationFailure errs) ∧
    (api_post_leads none (some "jane@example.com") none
      (some "visa consultation") none (Store.mk [] 0 0)
      (Env.mk none none none none none none none)
      (Except.ok ())).1.storeCalled = false ∧
    (api_post_leads none (some "jane@example.com") none
      (some "visa consultation") none (Store.mk [] 0 0)
      (Env.mk none none none none none none none)
      (Except.ok ())).2 = Store.mk [] 0 0) :=
  ⟨rfl,
   spec_C4 none (some "jane@example.com") none (some "visa consultation") none
     (Store.mk [] 0 0) (Env.mk none none none none none none none)
     (Except.ok ()) (Or.inl rfl)⟩

/-- C7: for a submission that validates, the response of the route is
exactly the success body carrying the identifier returned by the store
create operation, and that identifier is a non-empty string. -/
theorem spec_C7 (rawName rawEmail rawPhone rawInterest rawNotes : Option String)
    (lead : LeadCreate) (store : Store) (env : Env) (smtp : Except String Unit)
    (h : validateLead rawName rawEmail rawPhone rawInterest rawNotes
      = Except.ok lead) :
    (api_post_leads rawName rawEmail rawPhone rawInterest rawNotes
      store env smtp).1.response
      = ApiResponse.success (create_document lead store).1 ∧
    (create_document lead store).1 ≠ "" := by
  constructor
  · simp [api_post_leads, h, create_lead]
  · exact oid_ne_empty store.nextOid

/-- C7 witness: a concrete valid submission against the empty store. -/
theorem spec_C7_witness :
    validateLead (some "Jane Doe") (some "jane@example.com") none
      (some "visa consultation") none
      = Except.ok (LeadCreate.mk "Jane Doe" "jane@example.com" none
          "visa consultation" none) ∧
    (api_post_leads (some "Jane Doe") (some "jane@example.com") none
      (some "visa consultation") none (Store.mk [] 0 0)
      (Env.mk none none none none none none none)
      (Except.ok ())).1.response
      = ApiResponse.success
          (create_document (LeadCreate.mk "Jane Doe" "jane@example.com" none
            "visa consultation" none) (Store.mk [] 0 0)).1 ∧
    (create_document (LeadCreate.mk "Jane Doe" "jane@example.com" none
      "visa consultation" none) (Store.mk [] 0 0)).1 ≠ "" := by
  have h : validateLead (some "Jane Doe") (some "jane@example.com") none
      (some "visa consultation") none
      = Except.ok (LeadCreate.mk "Jane Doe" "jane@example.com" none
          "visa consultation" none) := by rfl
  have h2 := spec_C7 (some "Jane Doe") (some "jane@example.com") none
    (some "visa consultation") none
    (LeadCreate.mk "Jane Doe" "jane@example.com" none "visa consultation" none)
    (Store.mk [] 0 0) (Env.mk none none none none none none none)
    (Except.ok ()) h
  exact ⟨h, h2.1, h2.2⟩

/-- Five sequential creates against the empty store, for the listing
example of C8. -/
def storeOfFive : Store :=
  let mk : Nat → LeadCreate := fun i =>
    { name := "n" ++ toString i, email := "e" ++ toString i, phone := none,
      interest := "relocation", notes := none }
  (create_document (mk 5)
    (create_document (mk 4)
      (create_document (mk 3)
        (create_document (mk 2)
          (create_document (mk 1) (Store.mk [] 0 0)).2).2).2).2).2

/-- C8: the listing returns at most limit records, newest first, mapping
each stored document into the response shape: the storage identifier is
rendered as a plain string, the timestamp is carried over or stays absent;
the default limit is 50; and list limit 2 over a store of 5 records
returns exactly the 2 newest. -/
theorem spec_C8 (store : Store) (limit : Nat) :
    (list_leads store limit).length = min limit store.docs.length ∧
    list_leads store limit = (store.docs.take limit).map docToLeadOut ∧
    (list_leads store limit).map (fun r => r.id)
      = (store.docs.take limit).map (fun d => pyStr d.oid) ∧
    (list_leads store limit).map (fun r => r.created_at)
      = (store.docs.take limit).map (fun d => d.created_at) ∧
    api_get_leads store none = list_leads store 50 ∧
    (list_leads storeOfFive 2).map (fun r => r.name) = ["n5", "n4"] ∧
    (list_leads storeOfFive 2).length = 2 := by
  refine ⟨?_, rfl, ?_, ?_, rfl, by decide, by decide⟩
  · simp [list_leads, get_documents]
  · rw [list_leads, get_documents, List.map_map]
    congr 1
  · rw [list_leads, get_documents, List.map_map]
    congr 1

end LeadApi
